import Mathlib

/-! Eldonia backend: the authentication routes

A shallow embedding of `backend/src/routes/auth.js`, the Express router that registers
the two handlers `POST /login` and `POST /register`, followed by the properties of the
handlers that the specification states.

The embedding covers

* the JavaScript values a request body can hold once a body parser has run (the JSON
  values, and `undefined` for an absent body or an absent property),
* the language operations the handlers use: `ToBoolean`, the operator `&&`, object
  destructuring (`RequireObjectCoercible` followed by property reads),
* the part of the response object the handlers drive: `res.status(code)` and
  `res.json(payload)`,
* the router with its two routes, and the processing of a sequence of requests,
* the bodies of the two handlers as syntax trees, with an interpreter that keeps the
  variables outside the handlers in a store, for the question whether a handler keeps
  state between requests.

The payload handed to `res.json` is modelled as the JavaScript value the handler builds;
its serialisation by Express is not part of the file.
-/

namespace Eldonia

/-! ## JavaScript values -/

/-- A JavaScript number: `NaN`, an infinity, or a finite double, written as a sign, a
mantissa and a binary exponent (`(-1)^negative * mantissa * 2^exponent`). The two zeros
`+0` and `-0` are the finite numbers with mantissa `0`. -/
inductive JSNumber where
  | nan
  | infinity (negative : Bool)
  | finite (negative : Bool) (mantissa : Nat) (exponent : Int)
  deriving DecidableEq, Repr

/-- The values of a parsed request body: the JSON values, and `undefined`. An object is
the list of its own properties; a property read takes the first binding of the key. -/
inductive JSValue where
  | undefined
  | null
  | boolean (b : Bool)
  | number (n : JSNumber)
  | string (s : String)
  | object (props : List (String × JSValue))
  | array (items : List JSValue)
  deriving Repr

instance : Inhabited JSValue := ⟨JSValue.undefined⟩

/-- A thrown JavaScript exception. -/
inductive JSError where
  | typeError (message : String)
  | referenceError (message : String)
  deriving DecidableEq, Repr

/-- Whether a number is `+0` or `-0`. -/
def JSNumber.isZero : JSNumber → Bool
  | .finite _ 0 _ => true
  | _ => false

/-- Whether a number is `NaN`. -/
def JSNumber.isNaN : JSNumber → Bool
  | .nan => true
  | _ => false

/-- The abstract operation `ToBoolean` of ECMAScript, which decides the branch an
`if (...)` takes: `undefined`, `null`, `false`, `+0`, `-0`, `NaN` and the empty string
convert to `false`, every other value (every object and array included) to `true`. -/
def toBoolean : JSValue → Bool
  | .undefined => false
  | .null => false
  | .boolean b => b
  | .number n => !(n.isZero || n.isNaN)
  | .string s => !(s == "")
  | .object _ => true
  | .array _ => true

/-- The operator `a && b`: the value of `a` when `a` is falsy, the value of `b`
otherwise. -/
def logicalAnd (a b : JSValue) : JSValue :=
  if toBoolean a then b else a

/-- The list of falsy values as the specification words it: `undefined`, `null`, `''`,
`0` (either zero), `NaN`, `false`. -/
def listedFalsy : JSValue → Prop
  | .undefined => True
  | .null => True
  | .string s => s = ""
  | .number n => n = JSNumber.nan ∨ ∃ negative exponent, n = JSNumber.finite negative 0 exponent
  | .boolean b => b = false
  | _ => False

/-- The abstract operation `RequireObjectCoercible`, the first step of the destructuring
`const { ... } = value`: it throws a `TypeError` on `undefined` and on `null`. -/
def requireObjectCoercible : JSValue → Except JSError Unit
  | .undefined => .error (.typeError "Cannot destructure req.body as it is undefined.")
  | .null => .error (.typeError "Cannot destructure req.body as it is null.")
  | _ => .ok ()

/-- The value of the own property `key` among the properties of an object, `undefined`
when the object has no such property. -/
def getOwn (props : List (String × JSValue)) (key : String) : JSValue :=
  match props.lookup key with
  | some v => v
  | none => .undefined

/-- The property read `value[key]` on an object-coercible value, for the keys the
handlers read (`email`, `password`, `name`) and the keys of the payloads they build:
an object yields its own property, and a string, number, boolean or array yields
`undefined`, since none of those keys is defined on a wrapper or on a built-in
prototype. -/
def getV : JSValue → String → JSValue
  | .object props, key => getOwn props key
  | _, _ => .undefined

/-- The names of the own properties of a value, in order; a value that is not an object
has none. -/
def ownKeys : JSValue → List String
  | .object props => props.map Prod.fst
  | _ => []

/-- The value reached from a value by a path of property names. -/
def valueAt : JSValue → List String → JSValue
  | v, [] => v
  | v, key :: rest => valueAt (getV v key) rest

/-! ## Requests and responses -/

/-- The part of an Express request that reaches a handler. The handlers of this module read
`body` only. -/
structure Request where
  method : String
  path : String
  headers : List (String × String)
  body : JSValue

/-- The state of an Express response object: the status code, `200` until `res.status` is
called, and the payload sent by `res.json`, if any. -/
structure Response where
  statusCode : Nat
  body : Option JSValue

/-- The response object Express hands to a handler: status `200`, nothing sent. -/
def Response.fresh : Response := ⟨200, none⟩

/-- The call `res.status(code)`: sets the status code and returns the response object. -/
def Response.status (res : Response) (code : Nat) : Response := ⟨code, res.body⟩

/-- The call `res.json(payload)`: sends the payload with the current status code. -/
def Response.json (res : Response) (payload : JSValue) : Response :=
  ⟨res.statusCode, some payload⟩

/-- The payload a response carries, `undefined` when nothing was sent. -/
def Response.payload (res : Response) : JSValue :=
  match res.body with
  | some v => v
  | none => .undefined

/-! ## The handlers -/

/-- The handler of `router.post('/login', ...)`. -/
def login (req : Request) (res : Response) : Except JSError Response := do
  -- const { email, password } = req.body;
  requireObjectCoercible req.body
  let email := getV req.body "email"
  let password := getV req.body "password"
  if toBoolean (logicalAnd email password) then
    pure (res.json (.object [
      ("message", .string "Login successful"),
      ("token", .string "dummy-jwt-token"),
      ("user", .object [("email", email), ("id", .string "1")])]))
  else
    pure ((res.status 400).json (.object [("error", .string "Email and password required")]))

/-- The handler of `router.post('/register', ...)`. -/
def register (req : Request) (res : Response) : Except JSError Response := do
  -- const { email, password, name } = req.body;
  requireObjectCoercible req.body
  let email := getV req.body "email"
  let password := getV req.body "password"
  let name := getV req.body "name"
  if toBoolean (logicalAnd (logicalAnd email password) name) then
    pure ((res.status 201).json (.object [
      ("message", .string "User registered successfully"),
      ("user", .object [("email", email), ("name", name), ("id", .string "1")])]))
  else
    pure ((res.status 400).json (.object [("error", .string "All fields required")]))

/-! ## The router -/

/-- A handler: it receives the request and the response object, and either returns the
response object as it left it or throws. -/
abbrev Handler := Request → Response → Except JSError Response

/-- A route of a router: a method, a path and the handler registered for them. -/
structure Route where
  method : String
  path : String
  handler : Handler

/-- An Express router: its routes, in registration order. -/
abbrev Router := List Route

/-- The call `router.post(path, handler)`. -/
def Router.post (rt : Router) (path : String) (handler : Handler) : Router :=
  rt ++ [⟨"POST", path, handler⟩]

/-- The router the module exports: `express.Router()` with the two routes registered. -/
def router : Router :=
  (Router.post (Router.post [] "/login" login) "/register" register)

/-- What a request comes to: `none` when no route of the router matches it, so that no
handler of the module runs and the reply is left to Express, otherwise the response the
handler left, or the exception it threw. -/
abbrev Outcome := Option (Except JSError Response)

/-- A string with its ASCII capital letters turned into small letters. -/
def lowerCase (s : String) : String := ⟨s.data.map Char.toLower⟩

/-- Whether a request path matches the path of a route, with the default options of
`express.Router()`: the case of the letters does not count, and the request path may end
in one more slash. The request path is the path of the URL below the mount point of the
router, without the query string. -/
def pathMatches (routePath requestPath : String) : Bool :=
  lowerCase requestPath == lowerCase routePath
    || lowerCase requestPath == lowerCase routePath ++ "/"

/-- Dispatch of one request: the handler of the first route with the request's method and
a matching path runs, on a fresh response object. -/
def Router.handle : Router → Request → Outcome
  | [], _ => none
  | route :: rest, req =>
    if route.method = req.method ∧ pathMatches route.path req.path = true then
      some (route.handler req Response.fresh)
    else
      Router.handle rest req

/-- One request processed by a router: the outcome, and the router afterwards, whose
routes are those registered when the module was loaded. -/
def Router.step (rt : Router) (req : Request) : Router × Outcome :=
  (rt, Router.handle rt req)

/-- A sequence of requests processed in order: the outcomes and the final module state. -/
def Router.run (rt : Router) : List Request → Router × List Outcome
  | [] => (rt, [])
  | req :: rest =>
    let first := Router.step rt req
    let others := Router.run first.1 rest
    (others.1, first.2 :: others.2)

/-- The request `POST /login` with a body. -/
def loginRequest (body : JSValue) : Request := ⟨"POST", "/login", [], body⟩

/-- The request `POST /register` with a body. -/
def registerRequest (body : JSValue) : Request := ⟨"POST", "/register", [], body⟩

/-- The login body with the two fields `email` and `password`. -/
def credentials (email password : JSValue) : JSValue :=
  .object [("email", email), ("password", password)]

/-- The register body with the three fields `email`, `password` and `name`. -/
def registration (email password name : JSValue) : JSValue :=
  .object [("email", email), ("password", password), ("name", name)]

mutual

/-- The fields of a value, nested ones included: each path of property names that leads
from the value to a value that is not itself an object, with the value found there. -/
def leaves : JSValue → List (List String × JSValue)
  | .object props => leavesOfProps props
  | v => [([], v)]

/-- The fields below the properties of an object. -/
def leavesOfProps : List (String × JSValue) → List (List String × JSValue)
  | [] => []
  | (key, v) :: rest =>
    (leaves v).map (fun leaf => (key :: leaf.1, leaf.2)) ++ leavesOfProps rest

end

/-! ## The source of the handlers

The two arrow functions of `auth.js` as syntax trees, and an interpreter for the statements
they are made of. The interpreter keeps apart the bindings of one call (the parameter
`req` and the constants the body declares) and the variables that outlive a call (module
scope and globals). The language has the assignment `name = value` as well, which the
handlers of `auth.js` do not use. -/

/-- Expressions: a string literal, an identifier, `object.prop`, `left && right` and an
object literal (the shorthand `{ email }` is the property `email` with the identifier
`email` as value). -/
inductive Expr where
  | str (s : String)
  | ident (name : String)
  | member (object : Expr) (prop : String)
  | and (left right : Expr)
  | objectLit (props : List (String × Expr))

/-- The receiver of `.json(...)`: `res`, or a call `target.status(code)`, which returns
its receiver. -/
inductive ResExpr where
  | res
  | status (target : ResExpr) (code : Nat)

/-- Statements: `const { names } = init;`, `if (test) consequent else alternate`,
`target.json(payload);`, `name = value;`, a statement followed by the rest of its block,
and the end of a block. -/
inductive Stmt where
  | constDestructure (names : List String) (init : Expr)
  | ifElse (test : Expr) (consequent alternate : Stmt)
  | json (target : ResExpr) (payload : Expr)
  | assign (name : String) (value : Expr)
  | seq (first rest : Stmt)
  | skip

/-- A binding of one call: its value, and whether it was declared with `const`. -/
structure Binding where
  value : JSValue
  constant : Bool

/-- The bindings of one call of a handler, innermost first. -/
abbrev Scope := List (String × Binding)

/-- The variables outside the handlers, which outlive a call: the module scope and the
globals. -/
abbrev Store := List (String × JSValue)

/-- A property or variable set to a value: the binding is replaced where the key exists
and added at the end otherwise. -/
def setOwn : List (String × JSValue) → String → JSValue → List (String × JSValue)
  | [], key, v => [(key, v)]
  | (k, w) :: rest, key, v =>
    if k = key then (k, v) :: rest else (k, w) :: setOwn rest key v

/-- The request object as a handler sees it. -/
def Request.toValue (req : Request) : JSValue :=
  .object [
    ("method", .string req.method),
    ("url", .string req.path),
    ("headers", .object (req.headers.map (fun h => (h.1, JSValue.string h.2)))),
    ("body", req.body)]

/-- The value of an identifier: the binding of the call when there is one, the variable
of the store otherwise; a `ReferenceError` when there is neither. -/
def lookupVar (scope : Scope) (store : Store) (name : String) : Except JSError JSValue :=
  match scope.lookup name with
  | some binding => .ok binding.value
  | none =>
    match store.lookup name with
    | some v => .ok v
    | none => .error (.referenceError (name ++ " is not defined"))

mutual

/-- Evaluation of an expression. The expressions of this language have no side effect. -/
def evalExpr (scope : Scope) (store : Store) : Expr → Except JSError JSValue
  | .str s => .ok (.string s)
  | .ident name => lookupVar scope store name
  | .member object prop =>
    match evalExpr scope store object with
    | .error e => .error e
    | .ok .undefined => .error (.typeError "Cannot read properties of undefined")
    | .ok .null => .error (.typeError "Cannot read properties of null")
    | .ok v => .ok (getV v prop)
  | .and left right =>
    match evalExpr scope store left with
    | .error e => .error e
    | .ok v => if toBoolean v then evalExpr scope store right else .ok v
  | .objectLit props =>
    match evalProps scope store [] props with
    | .error e => .error e
    | .ok fields => .ok (.object fields)

/-- Evaluation of the properties of an object literal, in order, onto the properties
already set. -/
def evalProps (scope : Scope) (store : Store) (fields : List (String × JSValue)) :
    List (String × Expr) → Except JSError (List (String × JSValue))
  | [] => .ok fields
  | (key, e) :: rest =>
    match evalExpr scope store e with
    | .error err => .error err
    | .ok v => evalProps scope store (setOwn fields key v) rest

end

/-- The receiver of `.json(...)` evaluated: each `status(code)` sets the status code. -/
def evalRes : ResExpr → Response → Response
  | .res, res => res
  | .status target code, res => (evalRes target res).status code

/-- The state of a call: its bindings, the variables outside the handler and the response
object. -/
structure Machine where
  scope : Scope
  store : Store
  res : Response

/-- Execution of a statement: the exception it throws, if any, and the state it leaves.
A block ends the bindings it declared; `target.json(payload)` evaluates its receiver, then
its argument, and sends. -/
def exec : Stmt → Machine → Option JSError × Machine
  | .constDestructure names init, m =>
    match evalExpr m.scope m.store init with
    | .error e => (some e, m)
    | .ok v =>
      match requireObjectCoercible v with
      | .error e => (some e, m)
      | .ok _ =>
        (none, ⟨names.map (fun name => (name, ⟨getV v name, true⟩)) ++ m.scope, m.store, m.res⟩)
  | .ifElse test consequent alternate, m =>
    match evalExpr m.scope m.store test with
    | .error e => (some e, m)
    | .ok v =>
      let after := if toBoolean v then exec consequent m else exec alternate m
      (after.1, ⟨m.scope, after.2.store, after.2.res⟩)
  | .json target payload, m =>
    let res := evalRes target m.res
    match evalExpr m.scope m.store payload with
    | .error e => (some e, ⟨m.scope, m.store, res⟩)
    | .ok v => (none, ⟨m.scope, m.store, res.json v⟩)
  | .assign name value, m =>
    match evalExpr m.scope m.store value with
    | .error e => (some e, m)
    | .ok v =>
      match m.scope.lookup name with
      | some binding =>
        if binding.constant then
          (some (.typeError "Assignment to constant variable."), m)
        else
          (none, ⟨(name, ⟨v, false⟩) :: m.scope, m.store, m.res⟩)
      | none => (none, ⟨m.scope, setOwn m.store name v, m.res⟩)
  | .seq first rest, m =>
    match exec first m with
    | (some e, m1) => (some e, m1)
    | (none, m1) => exec rest m1
  | .skip, m => (none, m)

/-- One call of a handler with the given body: the response object as the body left it,
or the exception thrown, and the variables outside the handler after the call. -/
def runHandler (body : Stmt) (req : Request) (res : Response) (store : Store) :
    Except JSError Response × Store :=
  match exec body ⟨[("req", ⟨req.toValue, false⟩)], store, res⟩ with
  | (some e, m) => (.error e, m.store)
  | (none, m) => (.ok m.res, m.store)

/-- The body of the handler of `router.post('/login', ...)`, lines 5 to 18. -/
def loginSource : Stmt :=
  .seq (.constDestructure ["email", "password"] (.member (.ident "req") "body"))
  (.seq (.ifElse (.and (.ident "email") (.ident "password"))
      (.seq (.json .res (.objectLit [
          ("message", .str "Login successful"),
          ("token", .str "dummy-jwt-token"),
          ("user", .objectLit [("email", .ident "email"), ("id", .str "1")])]))
        .skip)
      (.seq (.json (.status .res 400) (.objectLit [
          ("error", .str "Email and password required")]))
        .skip))
    .skip)

/-- The body of the handler of `router.post('/register', ...)`, lines 21 to 33. -/
def registerSource : Stmt :=
  .seq (.constDestructure ["email", "password", "name"] (.member (.ident "req") "body"))
  (.seq (.ifElse (.and (.and (.ident "email") (.ident "password")) (.ident "name"))
      (.seq (.json (.status .res 201) (.objectLit [
          ("message", .str "User registered successfully"),
          ("user", .objectLit [("email", .ident "email"), ("name", .ident "name"),
            ("id", .str "1")])]))
        .skip)
      (.seq (.json (.status .res 400) (.objectLit [("error", .str "All fields required")]))
        .skip))
    .skip)

/-- A handler body that is not in `auth.js`, for comparison: it answers with the variable
`last` of the module and then assigns the email of the request to it.

    const { email } = req.body;
    res.json({ previous: last });
    last = email;
-/
def rememberSource : Stmt :=
  .seq (.constDestructure ["email"] (.member (.ident "req") "body"))
  (.seq (.json .res (.objectLit [("previous", .ident "last")]))
  (.seq (.assign "last" (.ident "email"))
    .skip))

/-- The two endpoints of the module. -/
inductive Endpoint where
  | login
  | register
  deriving DecidableEq, Repr

/-- The body of the handler registered for an endpoint. -/
def Endpoint.source : Endpoint → Stmt
  | .login => loginSource
  | .register => registerSource

/-- The function of the embedding that stands for the handler of an endpoint. -/
def Endpoint.handler : Endpoint → Request → Response → Except JSError Response
  | .login => Eldonia.login
  | .register => Eldonia.register

/-- A sequence of requests to the endpoints handled in order, each on a fresh response
object: the variables outside the handlers afterwards, and the outcomes. -/
def serve (source : Endpoint → Stmt) (store : Store) :
    List (Endpoint × Request) → Store × List (Except JSError Response)
  | [] => (store, [])
  | (endpoint, req) :: rest =>
    let first := runHandler (source endpoint) req Response.fresh store
    let others := serve source first.2 rest
    (others.1, first.1 :: others.2)

/-! ## Auxiliary facts -/

lemma toBoolean_eq_false_iff_listedFalsy (v : JSValue) :
    toBoolean v = false ↔ listedFalsy v := by
  cases v with
  | undefined => simp [toBoolean, listedFalsy]
  | null => simp [toBoolean, listedFalsy]
  | boolean b => simp [toBoolean, listedFalsy]
  | string s => simp [toBoolean, listedFalsy]
  | object props => simp [toBoolean, listedFalsy]
  | array items => simp [toBoolean, listedFalsy]
  | number n =>
    cases n with
    | nan => simp [toBoolean, listedFalsy, JSNumber.isNaN]
    | infinity negative => simp [toBoolean, listedFalsy, JSNumber.isNaN, JSNumber.isZero]
    | finite negative mantissa exponent =>
      cases mantissa with
      | zero => simp [toBoolean, listedFalsy, JSNumber.isZero]
      | succ m => simp [toBoolean, listedFalsy, JSNumber.isNaN, JSNumber.isZero]

lemma toBoolean_logicalAnd (a b : JSValue) :
    toBoolean (logicalAnd a b) = (toBoolean a && toBoolean b) := by
  unfold logicalAnd
  cases h : toBoolean a <;> simp [h]

lemma toBoolean_string (s : String) (h : s ≠ "") : toBoolean (.string s) = true := by
  simp [toBoolean, h]

lemma object_of_toBoolean_getV (body : JSValue) (key : String)
    (h : toBoolean (getV body key) = true) : ∃ props, body = .object props := by
  cases body with
  | object props => exact ⟨props, rfl⟩
  | undefined => simp [getV, toBoolean] at h
  | null => simp [getV, toBoolean] at h
  | boolean b => simp [getV, toBoolean] at h
  | number n => simp [getV, toBoolean] at h
  | string s => simp [getV, toBoolean] at h
  | array items => simp [getV, toBoolean] at h

/-- The login handler on a body that is an object: no exception, and the branch is
decided by the truthiness of the two fields. -/
lemma login_object (req : Request) (res : Response) (props : List (String × JSValue))
    (hbody : req.body = .object props) :
    login req res =
      if toBoolean (getV req.body "email") && toBoolean (getV req.body "password") then
        .ok ⟨res.statusCode, some (.object [
          ("message", .string "Login successful"),
          ("token", .string "dummy-jwt-token"),
          ("user", .object [("email", getV req.body "email"), ("id", .string "1")])])⟩
      else
        .ok ⟨400, some (.object [("error", .string "Email and password required")])⟩ := by
  unfold login
  rw [hbody]
  simp only [requireObjectCoercible, toBoolean_logicalAnd, Response.json, Response.status]
  rfl

/-- The register handler on a body that is an object: no exception, and the branch is
decided by the truthiness of the three fields. -/
lemma register_object (req : Request) (res : Response) (props : List (String × JSValue))
    (hbody : req.body = .object props) :
    register req res =
      if (toBoolean (getV req.body "email") && toBoolean (getV req.body "password"))
          && toBoolean (getV req.body "name") then
        .ok ⟨201, some (.object [
          ("message", .string "User registered successfully"),
          ("user", .object [("email", getV req.body "email"), ("name", getV req.body "name"),
            ("id", .string "1")])])⟩
      else
        .ok ⟨400, some (.object [("error", .string "All fields required")])⟩ := by
  unfold register
  rw [hbody]
  simp only [requireObjectCoercible, toBoolean_logicalAnd, Response.json, Response.status]
  rfl

lemma run_fst (rt : Router) (reqs : List Request) : (Router.run rt reqs).1 = rt := by
  induction reqs with
  | nil => rfl
  | cons req rest ih => simpa [Router.run, Router.step] using ih

lemma run_snd (rt : Router) (reqs : List Request) :
    (Router.run rt reqs).2 = reqs.map (Router.handle rt) := by
  induction reqs with
  | nil => rfl
  | cons req rest ih => simp [Router.run, Router.step, ih]

lemma run_getLast (rt : Router) (history : List Request) (req : Request) :
    (Router.run rt (history ++ [req])).2.getLast? = some (Router.handle rt req) := by
  simp [run_snd]

lemma pathMatches_login_login : pathMatches "/login" "/login" = true := by decide

lemma pathMatches_login_register : pathMatches "/login" "/register" = false := by decide

lemma pathMatches_register_register : pathMatches "/register" "/register" = true := by
  decide

lemma handle_login (req : Request) (hm : req.method = "POST") (hp : req.path = "/login") :
    Router.handle router req = some (login req Response.fresh) := by
  simp [router, Router.post, Router.handle, hm, hp, pathMatches_login_login]

lemma handle_register (req : Request) (hm : req.method = "POST")
    (hp : req.path = "/register") :
    Router.handle router req = some (register req Response.fresh) := by
  simp [router, Router.post, Router.handle, hm, hp, pathMatches_login_register,
    pathMatches_register_register]

lemma login_credentials (email password : String) (he : email ≠ "") (hp : password ≠ "") :
    login (loginRequest (credentials (.string email) (.string password))) Response.fresh
      = .ok ⟨200, some (.object [
        ("message", .string "Login successful"),
        ("token", .string "dummy-jwt-token"),
        ("user", .object [("email", .string email), ("id", .string "1")])])⟩ := by
  rw [login_object _ Response.fresh _ rfl]
  have h1 : getV (loginRequest (credentials (.string email) (.string password))).body "email"
      = .string email := rfl
  have h2 : getV (loginRequest (credentials (.string email) (.string password))).body
      "password" = .string password := rfl
  rw [h1, h2, toBoolean_string email he, toBoolean_string password hp]
  rfl

lemma register_registration (email password name : String) (he : email ≠ "")
    (hp : password ≠ "") (hn : name ≠ "") :
    register (registerRequest (registration (.string email) (.string password) (.string name)))
        Response.fresh
      = .ok ⟨201, some (.object [
        ("message", .string "User registered successfully"),
        ("user", .object [("email", .string email), ("name", .string name),
          ("id", .string "1")])])⟩ := by
  rw [register_object _ Response.fresh _ rfl]
  have h1 : getV (registerRequest
      (registration (.string email) (.string password) (.string name))).body "email"
      = .string email := rfl
  have h2 : getV (registerRequest
      (registration (.string email) (.string password) (.string name))).body "password"
      = .string password := rfl
  have h3 : getV (registerRequest
      (registration (.string email) (.string password) (.string name))).body "name"
      = .string name := rfl
  rw [h1, h2, h3, toBoolean_string email he, toBoolean_string password hp,
    toBoolean_string name hn]
  rfl

/-- The login handler answers with status 200 or 400 whenever it answers. -/
lemma login_status (req : Request) (r : Response) (h : login req Response.fresh = .ok r) :
    r.statusCode = 200 ∨ r.statusCode = 400 := by
  unfold login at h
  cases hb : requireObjectCoercible req.body with
  | error e => rw [hb] at h; cases h
  | ok u =>
    rw [hb] at h
    by_cases hc : toBoolean (logicalAnd (getV req.body "email") (getV req.body "password"))
        = true
    · simp [hc, Response.json, Response.status, Response.fresh, bind, Except.bind, pure,
        Except.pure] at h
      subst h
      exact Or.inl rfl
    · simp [hc, Response.json, Response.status, Response.fresh, bind, Except.bind, pure,
        Except.pure] at h
      subst h
      exact Or.inr rfl

/-- The register handler answers with status 201 or 400 whenever it answers. -/
lemma register_status (req : Request) (r : Response)
    (h : register req Response.fresh = .ok r) :
    r.statusCode = 201 ∨ r.statusCode = 400 := by
  unfold register at h
  cases hb : requireObjectCoercible req.body with
  | error e => rw [hb] at h; cases h
  | ok u =>
    rw [hb] at h
    by_cases hc : toBoolean (logicalAnd (logicalAnd (getV req.body "email")
        (getV req.body "password")) (getV req.body "name")) = true
    · simp [hc, Response.json, Response.status, Response.fresh, bind, Except.bind, pure,
        Except.pure] at h
      subst h
      exact Or.inl rfl
    · simp [hc, Response.json, Response.status, Response.fresh, bind, Except.bind, pure,
        Except.pure] at h
      subst h
      exact Or.inr rfl

lemma run_register_login (email p name email2 q : String) (he : email ≠ "") (hp : p ≠ "")
    (hn : name ≠ "") (he2 : email2 ≠ "") (hq : q ≠ "") :
    (Router.run router [
        registerRequest (registration (.string email) (.string p) (.string name)),
        loginRequest (credentials (.string email2) (.string q))]).2
      = [some (.ok ⟨201, some (.object [
            ("message", .string "User registered successfully"),
            ("user", .object [("email", .string email), ("name", .string name),
              ("id", .string "1")])])⟩),
         some (.ok ⟨200, some (.object [
            ("message", .string "Login successful"),
            ("token", .string "dummy-jwt-token"),
            ("user", .object [("email", .string email2), ("id", .string "1")])])⟩)] := by
  rw [run_snd]
  simp only [List.map]
  rw [handle_register _ rfl rfl, handle_login _ rfl rfl,
    register_registration email p name he hp hn, login_credentials email2 q he2 hq]

lemma run_register_register (email p name email2 q name2 : String) (he : email ≠ "")
    (hp : p ≠ "") (hn : name ≠ "") (he2 : email2 ≠ "") (hq : q ≠ "") (hn2 : name2 ≠ "") :
    (Router.run router [
        registerRequest (registration (.string email) (.string p) (.string name)),
        registerRequest (registration (.string email2) (.string q) (.string name2))]).2
      = [some (.ok ⟨201, some (.object [
            ("message", .string "User registered successfully"),
            ("user", .object [("email", .string email), ("name", .string name),
              ("id", .string "1")])])⟩),
         some (.ok ⟨201, some (.object [
            ("message", .string "User registered successfully"),
            ("user", .object [("email", .string email2), ("name", .string name2),
              ("id", .string "1")])])⟩)] := by
  rw [run_snd]
  simp only [List.map]
  rw [handle_register _ rfl rfl, handle_register _ rfl rfl,
    register_registration email p name he hp hn,
    register_registration email2 q name2 he2 hq hn2]

/-! ## Login -/

/-- C1: for every request whose body has a truthy `email` and a truthy `password`, the
login handler answers with status 200 and the payload made of the message
`Login successful`, the token `dummy-jwt-token` and the user with the request's email,
unchanged, and the id `1`; the token is the same non-empty constant for all of them. The truthy
values are the values other than the listed falsy ones. -/
theorem login_success (req : Request)
    (hemail : toBoolean (getV req.body "email") = true)
    (hpassword : toBoolean (getV req.body "password") = true) :
    login req Response.fresh = .ok ⟨200, some (.object [
        ("message", .string "Login successful"),
        ("token", .string "dummy-jwt-token"),
        ("user", .object [("email", getV req.body "email"), ("id", .string "1")])])⟩
    ∧ "dummy-jwt-token" ≠ ""
    ∧ ¬ listedFalsy (getV req.body "email") ∧ ¬ listedFalsy (getV req.body "password")
    ∧ ∀ v, toBoolean v = true ↔ ¬ listedFalsy v := by
  have htruthy : ∀ v, toBoolean v = true ↔ ¬ listedFalsy v := by
    intro v
    rw [← toBoolean_eq_false_iff_listedFalsy]
    cases toBoolean v <;> simp
  obtain ⟨props, hbody⟩ := object_of_toBoolean_getV req.body "email" hemail
  refine ⟨?_, by decide, (htruthy _).1 hemail, (htruthy _).1 hpassword, htruthy⟩
  rw [login_object req Response.fresh props hbody, hemail, hpassword]
  rfl

theorem login_success_witness :
    login (loginRequest (credentials (.string "a@x.com") (.string "p1"))) Response.fresh
      = .ok ⟨200, some (.object [
        ("message", .string "Login successful"),
        ("token", .string "dummy-jwt-token"),
        ("user", .object [("email", .string "a@x.com"), ("id", .string "1")])])⟩
    ∧ "dummy-jwt-token" ≠ ""
    ∧ ¬ listedFalsy (.string "a@x.com") ∧ ¬ listedFalsy (.string "p1")
    ∧ ∀ v, toBoolean v = true ↔ ¬ listedFalsy v :=
  login_success (loginRequest (credentials (.string "a@x.com") (.string "p1")))
    (by decide) (by decide)

/-- C2: for every request whose body is an object, the login handler answers with status
400 exactly when `email` or `password` is falsy (one of the listed falsy values), and the
payload is then the single field `error` with the text `Email and password required`,
without a `token` and without a `user`. -/
theorem login_bad_request_iff (req : Request) (props : List (String × JSValue))
    (hbody : req.body = .object props) :
    ∃ r, login req Response.fresh = .ok r
      ∧ (r.statusCode = 400 ↔
          (toBoolean (getV req.body "email") = false
            ∨ toBoolean (getV req.body "password") = false))
      ∧ (r.statusCode = 400 ↔
          (listedFalsy (getV req.body "email") ∨ listedFalsy (getV req.body "password")))
      ∧ (r.statusCode = 400 →
          r.body = some (.object [("error", .string "Email and password required")])
            ∧ ownKeys r.payload = ["error"]
            ∧ getV r.payload "token" = .undefined
            ∧ getV r.payload "user" = .undefined) := by
  rw [login_object req Response.fresh props hbody]
  simp only [← toBoolean_eq_false_iff_listedFalsy]
  cases he : toBoolean (getV req.body "email") <;>
    cases hp : toBoolean (getV req.body "password") <;>
    simp [Response.fresh, Response.payload, ownKeys, getV, getOwn, List.lookup]

theorem login_bad_request_iff_witness :
    ∃ r, login (loginRequest (credentials (.string "a@x.com") (.string ""))) Response.fresh
        = .ok r
      ∧ (r.statusCode = 400 ↔
          (toBoolean (getV (credentials (.string "a@x.com") (.string "")) "email") = false
            ∨ toBoolean (getV (credentials (.string "a@x.com") (.string "")) "password")
                = false))
      ∧ (r.statusCode = 400 ↔
          (listedFalsy (getV (credentials (.string "a@x.com") (.string "")) "email")
            ∨ listedFalsy (getV (credentials (.string "a@x.com") (.string "")) "password")))
      ∧ (r.statusCode = 400 →
          r.body = some (.object [("error", .string "Email and password required")])
            ∧ ownKeys r.payload = ["error"]
            ∧ getV r.payload "token" = .undefined
            ∧ getV r.payload "user" = .undefined) :=
  login_bad_request_iff (loginRequest (credentials (.string "a@x.com") (.string "")))
    [("email", .string "a@x.com"), ("password", .string "")] rfl

/-! ## Register -/

/-- C3: for every request whose body has a truthy `email`, `password` and `name`, the
register handler answers with status 201 and the payload made of the message
`User registered successfully` and the user with the request's email and name, unchanged,
and the id `1`; no field of the payload or of its user is called `password`. -/
theorem register_success (req : Request)
    (hemail : toBoolean (getV req.body "email") = true)
    (hpassword : toBoolean (getV req.body "password") = true)
    (hname : toBoolean (getV req.body "name") = true) :
    ∃ r, register req Response.fresh = .ok r
      ∧ r = ⟨201, some (.object [
          ("message", .string "User registered successfully"),
          ("user", .object [("email", getV req.body "email"), ("name", getV req.body "name"),
            ("id", .string "1")])])⟩
      ∧ "password" ∉ ownKeys r.payload
      ∧ "password" ∉ ownKeys (getV r.payload "user") := by
  obtain ⟨props, hbody⟩ := object_of_toBoolean_getV req.body "email" hemail
  rw [register_object req Response.fresh props hbody, hemail, hpassword, hname]
  refine ⟨_, rfl, rfl, ?_, ?_⟩
  · simp [Response.payload, ownKeys]
  · simp [Response.payload, ownKeys, getV, getOwn, List.lookup]

theorem register_success_witness :
    ∃ r, register (registerRequest
          (registration (.string "a@x.com") (.string "p1") (.string "A"))) Response.fresh
        = .ok r
      ∧ r = ⟨201, some (.object [
          ("message", .string "User registered successfully"),
          ("user", .object [
            ("email", getV (registration (.string "a@x.com") (.string "p1") (.string "A"))
              "email"),
            ("name", getV (registration (.string "a@x.com") (.string "p1") (.string "A"))
              "name"),
            ("id", .string "1")])])⟩
      ∧ "password" ∉ ownKeys r.payload
      ∧ "password" ∉ ownKeys (getV r.payload "user") :=
  register_success
    (registerRequest (registration (.string "a@x.com") (.string "p1") (.string "A")))
    (by decide) (by decide) (by decide)

/-- C4: for every request whose body is an object, the register handler answers with
status 400 exactly when one of `email`, `password`, `name` is falsy (one of the listed
falsy values), and with status 201 otherwise; at status 400 the payload is the single
field `error` with the text `All fields required`, without a `user`. -/
theorem register_bad_request_iff (req : Request) (props : List (String × JSValue))
    (hbody : req.body = .object props) :
    ∃ r, register req Response.fresh = .ok r
      ∧ (r.statusCode = 400 ↔
          (toBoolean (getV req.body "email") = false
            ∨ toBoolean (getV req.body "password") = false
            ∨ toBoolean (getV req.body "name") = false))
      ∧ (r.statusCode = 400 ↔
          (listedFalsy (getV req.body "email") ∨ listedFalsy (getV req.body "password")
            ∨ listedFalsy (getV req.body "name")))
      ∧ (r.statusCode ≠ 400 → r.statusCode = 201)
      ∧ (r.statusCode = 400 →
          r.body = some (.object [("error", .string "All fields required")])
            ∧ ownKeys r.payload = ["error"]
            ∧ getV r.payload "user" = .undefined) := by
  rw [register_object req Response.fresh props hbody]
  simp only [← toBoolean_eq_false_iff_listedFalsy]
  cases he : toBoolean (getV req.body "email") <;>
    cases hp : toBoolean (getV req.body "password") <;>
    cases hn : toBoolean (getV req.body "name") <;>
    simp [Response.payload, ownKeys, getV, getOwn, List.lookup]

theorem register_bad_request_iff_witness :
    ∃ r, register (registerRequest
          (registration (.string "a@x.com") (.string "p1") .null)) Response.fresh = .ok r
      ∧ (r.statusCode = 400 ↔
          (toBoolean (getV (registerRequest
              (registration (.string "a@x.com") (.string "p1") .null)).body "email") = false
            ∨ toBoolean (getV (registerRequest
              (registration (.string "a@x.com") (.string "p1") .null)).body "password") = false
            ∨ toBoolean (getV (registerRequest
              (registration (.string "a@x.com") (.string "p1") .null)).body "name") = false))
      ∧ (r.statusCode = 400 ↔
          (listedFalsy (getV (registerRequest
              (registration (.string "a@x.com") (.string "p1") .null)).body "email")
            ∨ listedFalsy (getV (registerRequest
              (registration (.string "a@x.com") (.string "p1") .null)).body "password")
            ∨ listedFalsy (getV (registerRequest
              (registration (.string "a@x.com") (.string "p1") .null)).body "name")))
      ∧ (r.statusCode ≠ 400 → r.statusCode = 201)
      ∧ (r.statusCode = 400 →
          r.body = some (.object [("error", .string "All fields required")])
            ∧ ownKeys r.payload = ["error"]
            ∧ getV r.payload "user" = .undefined) :=
  register_bad_request_iff
    (registerRequest (registration (.string "a@x.com") (.string "p1") .null))
    [("email", .string "a@x.com"), ("password", .string "p1"), ("name", .null)] rfl

/-! ## Sequences of requests -/

/-- C5: for all non-empty `email`, `password` and `name`, a register request followed by a
login request with the same email and password gets status 201 and then status 200, the
login payload holds a non-empty token, and the user of the login payload has the email
and the id of the user of the register payload. -/
theorem register_then_login (email password name : String)
    (he : email ≠ "") (hp : password ≠ "") (hn : name ≠ "") :
    ∃ r1 r2,
      (Router.run router [
          registerRequest (registration (.string email) (.string password) (.string name)),
          loginRequest (credentials (.string email) (.string password))]).2
        = [some (.ok r1), some (.ok r2)]
      ∧ r1.statusCode = 201
      ∧ r2.statusCode = 200
      ∧ (∃ token, valueAt r2.payload ["token"] = .string token ∧ token ≠ "")
      ∧ valueAt r2.payload ["user", "email"] = valueAt r1.payload ["user", "email"]
      ∧ valueAt r2.payload ["user", "id"] = valueAt r1.payload ["user", "id"]
      ∧ valueAt r1.payload ["user", "email"] = .string email
      ∧ valueAt r1.payload ["user", "id"] = .string "1" := by
  exact ⟨_, _, run_register_login email password name email password he hp hn he hp,
    rfl, rfl, ⟨"dummy-jwt-token", rfl, by decide⟩, rfl, rfl, rfl, rfl⟩

theorem register_then_login_witness :
    ∃ r1 r2,
      (Router.run router [
          registerRequest (registration (.string "a@x.com") (.string "p1") (.string "A")),
          loginRequest (credentials (.string "a@x.com") (.string "p1"))]).2
        = [some (.ok r1), some (.ok r2)]
      ∧ r1.statusCode = 201
      ∧ r2.statusCode = 200
      ∧ (∃ token, valueAt r2.payload ["token"] = .string token ∧ token ≠ "")
      ∧ valueAt r2.payload ["user", "email"] = valueAt r1.payload ["user", "email"]
      ∧ valueAt r2.payload ["user", "id"] = valueAt r1.payload ["user", "id"]
      ∧ valueAt r1.payload ["user", "email"] = .string "a@x.com"
      ∧ valueAt r1.payload ["user", "id"] = .string "1" :=
  register_then_login "a@x.com" "p1" "A" (by decide) (by decide) (by decide)

/-- C6, as stated, fails: after the register request of `a@x.com` with the password `p1`,
the login request of `a@x.com` with the password `wrong` is answered with status 200 and
the token, not with status 401. -/
theorem login_wrong_password_not_unauthorized :
    (Router.run router [
        registerRequest (registration (.string "a@x.com") (.string "p1") (.string "A")),
        loginRequest (credentials (.string "a@x.com") (.string "wrong"))]).2
      = [some (.ok ⟨201, some (.object [
            ("message", .string "User registered successfully"),
            ("user", .object [("email", .string "a@x.com"), ("name", .string "A"),
              ("id", .string "1")])])⟩),
         some (.ok ⟨200, some (.object [
            ("message", .string "Login successful"),
            ("token", .string "dummy-jwt-token"),
            ("user", .object [("email", .string "a@x.com"), ("id", .string "1")])])⟩)]
    ∧ ¬ ∃ r : Response,
        (Router.run router [
          registerRequest (registration (.string "a@x.com") (.string "p1") (.string "A")),
          loginRequest (credentials (.string "a@x.com") (.string "wrong"))]).2.get? 1
          = some (some (.ok r))
        ∧ r.statusCode = 401 := by
  have hrun : (Router.run router [
        registerRequest (registration (.string "a@x.com") (.string "p1") (.string "A")),
        loginRequest (credentials (.string "a@x.com") (.string "wrong"))]).2
      = [some (.ok ⟨201, some (.object [
            ("message", .string "User registered successfully"),
            ("user", .object [("email", .string "a@x.com"), ("name", .string "A"),
              ("id", .string "1")])])⟩),
         some (.ok ⟨200, some (.object [
            ("message", .string "Login successful"),
            ("token", .string "dummy-jwt-token"),
            ("user", .object [("email", .string "a@x.com"), ("id", .string "1")])])⟩)] := rfl
  refine ⟨hrun, ?_⟩
  rintro ⟨r, hr, hs⟩
  rw [hrun] at hr
  simp only [List.get?, Option.some.injEq, Except.ok.injEq] at hr
  subst hr
  simp at hs

/-- C6, amended: for every email, name and passwords `p ≠ q`, all non-empty, after the
register request with the password `p` has got status 201, the login request with the
password `q` gets status 200 and the payload with the message `Login successful`, the token
`dummy-jwt-token` and the user with that email and the id `1`, which is the outcome of the
login request with the password `p` too; whenever the login handler answers, the status
is 200 or 400. -/
theorem login_any_password (email name p q : String)
    (he : email ≠ "") (hn : name ≠ "") (hp : p ≠ "") (hq : q ≠ "") (_hpq : p ≠ q) :
    ∃ r1 r2,
      (Router.run router [
          registerRequest (registration (.string email) (.string p) (.string name)),
          loginRequest (credentials (.string email) (.string q))]).2
        = [some (.ok r1), some (.ok r2)]
      ∧ r1.statusCode = 201
      ∧ r2 = ⟨200, some (.object [
          ("message", .string "Login successful"),
          ("token", .string "dummy-jwt-token"),
          ("user", .object [("email", .string email), ("id", .string "1")])])⟩
      ∧ (Router.run router [
          registerRequest (registration (.string email) (.string p) (.string name)),
          loginRequest (credentials (.string email) (.string p))]).2
        = [some (.ok r1), some (.ok r2)]
      ∧ ∀ (req : Request) (r : Response), login req Response.fresh = .ok r →
          r.statusCode = 200 ∨ r.statusCode = 400 := by
  exact ⟨_, _, run_register_login email p name email q he hp hn he hq, rfl, rfl,
    run_register_login email p name email p he hp hn he hp, login_status⟩

theorem login_any_password_witness :
    ∃ r1 r2,
      (Router.run router [
          registerRequest (registration (.string "a@x.com") (.string "p1") (.string "A")),
          loginRequest (credentials (.string "a@x.com") (.string "wrong"))]).2
        = [some (.ok r1), some (.ok r2)]
      ∧ r1.statusCode = 201
      ∧ r2 = ⟨200, some (.object [
          ("message", .string "Login successful"),
          ("token", .string "dummy-jwt-token"),
          ("user", .object [("email", .string "a@x.com"), ("id", .string "1")])])⟩
      ∧ (Router.run router [
          registerRequest (registration (.string "a@x.com") (.string "p1") (.string "A")),
          loginRequest (credentials (.string "a@x.com") (.string "p1"))]).2
        = [some (.ok r1), some (.ok r2)]
      ∧ ∀ (req : Request) (r : Response), login req Response.fresh = .ok r →
          r.statusCode = 200 ∨ r.statusCode = 400 :=
  login_any_password "a@x.com" "A" "p1" "wrong"
    (by decide) (by decide) (by decide) (by decide) (by decide)

/-- C7, as stated, fails: the register request of `a@x.com` sent twice gets status 201
both times; the second one is not answered with status 409. -/
theorem register_twice_not_conflict :
    (Router.run router [
        registerRequest (registration (.string "a@x.com") (.string "p1") (.string "A")),
        registerRequest (registration (.string "a@x.com") (.string "p2") (.string "B"))]).2
      = [some (.ok ⟨201, some (.object [
            ("message", .string "User registered successfully"),
            ("user", .object [("email", .string "a@x.com"), ("name", .string "A"),
              ("id", .string "1")])])⟩),
         some (.ok ⟨201, some (.object [
            ("message", .string "User registered successfully"),
            ("user", .object [("email", .string "a@x.com"), ("name", .string "B"),
              ("id", .string "1")])])⟩)]
    ∧ ¬ ∃ r : Response,
        (Router.run router [
          registerRequest (registration (.string "a@x.com") (.string "p1") (.string "A")),
          registerRequest (registration (.string "a@x.com") (.string "p2") (.string "B"))]).2.get? 1
          = some (some (.ok r))
        ∧ r.statusCode = 409 := by
  have hrun : (Router.run router [
        registerRequest (registration (.string "a@x.com") (.string "p1") (.string "A")),
        registerRequest (registration (.string "a@x.com") (.string "p2") (.string "B"))]).2
      = [some (.ok ⟨201, some (.object [
            ("message", .string "User registered successfully"),
            ("user", .object [("email", .string "a@x.com"), ("name", .string "A"),
              ("id", .string "1")])])⟩),
         some (.ok ⟨201, some (.object [
            ("message", .string "User registered successfully"),
            ("user", .object [("email", .string "a@x.com"), ("name", .string "B"),
              ("id", .string "1")])])⟩)] := rfl
  refine ⟨hrun, ?_⟩
  rintro ⟨r, hr, hs⟩
  rw [hrun] at hr
  simp only [List.get?, Option.some.injEq, Except.ok.injEq] at hr
  subst hr
  simp at hs

/-- C7, amended: for every non-empty email and any non-empty passwords and names, when
the register request with that email has got status 201, a second register request with
the same email gets status 201 again, with the message `User registered successfully` and
the user with that email, the second name and the id `1`; whenever the register handler
answers, the status is 201 or 400. -/
theorem register_twice (email p1 name1 p2 name2 : String)
    (he : email ≠ "") (hp1 : p1 ≠ "") (hn1 : name1 ≠ "") (hp2 : p2 ≠ "")
    (hn2 : name2 ≠ "") :
    ∃ r1 r2,
      (Router.run router [
          registerRequest (registration (.string email) (.string p1) (.string name1)),
          registerRequest (registration (.string email) (.string p2) (.string name2))]).2
        = [some (.ok r1), some (.ok r2)]
      ∧ r1.statusCode = 201
      ∧ r2 = ⟨201, some (.object [
          ("message", .string "User registered successfully"),
          ("user", .object [("email", .string email), ("name", .string name2),
            ("id", .string "1")])])⟩
      ∧ ∀ (req : Request) (r : Response), register req Response.fresh = .ok r →
          r.statusCode = 201 ∨ r.statusCode = 400 := by
  exact ⟨_, _, run_register_register email p1 name1 email p2 name2 he hp1 hn1 he hp2 hn2,
    rfl, rfl, register_status⟩

theorem register_twice_witness :
    ∃ r1 r2,
      (Router.run router [
          registerRequest (registration (.string "a@x.com") (.string "p1") (.string "A")),
          registerRequest (registration (.string "a@x.com") (.string "p2") (.string "B"))]).2
        = [some (.ok r1), some (.ok r2)]
      ∧ r1.statusCode = 201
      ∧ r2 = ⟨201, some (.object [
          ("message", .string "User registered successfully"),
          ("user", .object [("email", .string "a@x.com"), ("name", .string "B"),
            ("id", .string "1")])])⟩
      ∧ ∀ (req : Request) (r : Response), register req Response.fresh = .ok r →
          r.statusCode = 201 ∨ r.statusCode = 400 :=
  register_twice "a@x.com" "p1" "A" "p2" "B"
    (by decide) (by decide) (by decide) (by decide) (by decide)

/-- C8: after every sequence of register requests, for non-empty emails `e1` (registered
in the sequence, with a password other than `q`) and `e2` (registered nowhere in it) and
a non-empty password `q`, the login responses for `e1` with `q` and for `e2` with `q` have
the same status and the same fields, nested ones included, with the same value in every
field but `user.email`, which holds the email of the request it answers. -/
theorem login_responses_same_shape (history : List Request) (e1 e2 q : String)
    (_hhistory : ∀ r ∈ history, r.method = "POST" ∧ r.path = "/register")
    (_hregistered : ∃ p name, p ≠ "" ∧ name ≠ "" ∧ p ≠ q ∧
      registerRequest (registration (.string e1) (.string p) (.string name)) ∈ history)
    (_hunknown : ∀ r ∈ history, getV r.body "email" ≠ .string e2)
    (he1 : e1 ≠ "") (he2 : e2 ≠ "") (hq : q ≠ "") :
    ∃ r1 r2,
      (Router.run router
          (history ++ [loginRequest (credentials (.string e1) (.string q))])).2.getLast?
        = some (some (.ok r1))
      ∧ (Router.run router
          (history ++ [loginRequest (credentials (.string e2) (.string q))])).2.getLast?
        = some (some (.ok r2))
      ∧ r1.statusCode = r2.statusCode
      ∧ (leaves r1.payload).map Prod.fst = (leaves r2.payload).map Prod.fst
      ∧ (∀ path v, path ≠ ["user", "email"] →
          ((path, v) ∈ leaves r1.payload ↔ (path, v) ∈ leaves r2.payload))
      ∧ (["user", "email"], JSValue.string e1) ∈ leaves r1.payload
      ∧ (["user", "email"], JSValue.string e2) ∈ leaves r2.payload := by
  have h1 : (Router.run router
      (history ++ [loginRequest (credentials (.string e1) (.string q))])).2.getLast?
      = some (some (.ok ⟨200, some (.object [
        ("message", .string "Login successful"),
        ("token", .string "dummy-jwt-token"),
        ("user", .object [("email", .string e1), ("id", .string "1")])])⟩)) := by
    rw [run_getLast, handle_login _ rfl rfl, login_credentials e1 q he1 hq]
  have h2 : (Router.run router
      (history ++ [loginRequest (credentials (.string e2) (.string q))])).2.getLast?
      = some (some (.ok ⟨200, some (.object [
        ("message", .string "Login successful"),
        ("token", .string "dummy-jwt-token"),
        ("user", .object [("email", .string e2), ("id", .string "1")])])⟩)) := by
    rw [run_getLast, handle_login _ rfl rfl, login_credentials e2 q he2 hq]
  refine ⟨_, _, h1, h2, rfl, ?_, ?_, ?_, ?_⟩
  · simp [Response.payload, leaves, leavesOfProps]
  · intro path v hpath
    simp only [Response.payload, leaves, leavesOfProps, List.map, List.append_nil,
      List.cons_append, List.nil_append, List.mem_cons, Prod.mk.injEq, List.mem_nil_iff,
      List.mem_singleton, or_false]
    constructor
    · rintro (h | h | h | h)
      · exact Or.inl h
      · exact Or.inr (Or.inl h)
      · exact absurd h.1 hpath
      · exact Or.inr (Or.inr (Or.inr h))
    · rintro (h | h | h | h)
      · exact Or.inl h
      · exact Or.inr (Or.inl h)
      · exact absurd h.1 hpath
      · exact Or.inr (Or.inr (Or.inr h))
  · simp [Response.payload, leaves, leavesOfProps]
  · simp [Response.payload, leaves, leavesOfProps]

theorem login_responses_same_shape_witness :
    ∃ r1 r2,
      (Router.run router
          ([registerRequest (registration (.string "a@x.com") (.string "p1") (.string "A"))]
            ++ [loginRequest (credentials (.string "a@x.com") (.string "wrong"))])).2.getLast?
        = some (some (.ok r1))
      ∧ (Router.run router
          ([registerRequest (registration (.string "a@x.com") (.string "p1") (.string "A"))]
            ++ [loginRequest (credentials (.string "b@x.com") (.string "wrong"))])).2.getLast?
        = some (some (.ok r2))
      ∧ r1.statusCode = r2.statusCode
      ∧ (leaves r1.payload).map Prod.fst = (leaves r2.payload).map Prod.fst
      ∧ (∀ path v, path ≠ ["user", "email"] →
          ((path, v) ∈ leaves r1.payload ↔ (path, v) ∈ leaves r2.payload))
      ∧ (["user", "email"], JSValue.string "a@x.com") ∈ leaves r1.payload
      ∧ (["user", "email"], JSValue.string "b@x.com") ∈ leaves r2.payload :=
  login_responses_same_shape
    [registerRequest (registration (.string "a@x.com") (.string "p1") (.string "A"))]
    "a@x.com" "b@x.com" "wrong"
    (by simp [registerRequest])
    ⟨"p1", "A", by decide, by decide, by decide, by simp⟩
    (by simp [registerRequest, registration, getV, getOwn, List.lookup])
    (by decide) (by decide) (by decide)

/-! ## Statelessness -/

lemma login_cases (req : Request) (res : Response) :
    login req res =
      match requireObjectCoercible req.body with
      | .error e => .error e
      | .ok _ =>
        if toBoolean (getV req.body "email") && toBoolean (getV req.body "password") then
          .ok ⟨res.statusCode, some (.object [
            ("message", .string "Login successful"),
            ("token", .string "dummy-jwt-token"),
            ("user", .object [("email", getV req.body "email"), ("id", .string "1")])])⟩
        else
          .ok ⟨400, some (.object [("error", .string "Email and password required")])⟩ := by
  unfold login
  cases requireObjectCoercible req.body with
  | error e => rfl
  | ok u =>
    simp only [toBoolean_logicalAnd, Response.json, Response.status]
    rfl

lemma register_cases (req : Request) (res : Response) :
    register req res =
      match requireObjectCoercible req.body with
      | .error e => .error e
      | .ok _ =>
        if (toBoolean (getV req.body "email") && toBoolean (getV req.body "password"))
            && toBoolean (getV req.body "name") then
          .ok ⟨201, some (.object [
            ("message", .string "User registered successfully"),
            ("user", .object [("email", getV req.body "email"),
              ("name", getV req.body "name"), ("id", .string "1")])])⟩
        else
          .ok ⟨400, some (.object [("error", .string "All fields required")])⟩ := by
  unfold register
  cases requireObjectCoercible req.body with
  | error e => rfl
  | ok u =>
    simp only [toBoolean_logicalAnd, Response.json, Response.status]
    rfl

lemma evalExpr_req_body (req : Request) (store : Store) :
    evalExpr [("req", ⟨req.toValue, false⟩)] store (.member (.ident "req") "body")
      = .ok req.body := by
  simp [evalExpr, lookupVar, List.lookup, Request.toValue, requireObjectCoercible, getV,
    getOwn]

/-- The body of the login handler, run by the interpreter, gives the response of `login`
and leaves every variable outside the handler as it was. -/
lemma run_loginSource (req : Request) (res : Response) (store : Store) :
    runHandler loginSource req res store = (login req res, store) := by
  rw [login_cases]
  unfold runHandler loginSource
  simp only [exec, evalExpr_req_body]
  cases hb : requireObjectCoercible req.body with
  | error e => simp
  | ok u =>
    simp only [List.map, List.cons_append, List.nil_append, evalExpr, lookupVar, List.lookup]
    cases he : toBoolean (getV req.body "email") <;>
      cases hp : toBoolean (getV req.body "password") <;>
      simp [he, hp, Response.json, Response.status, evalProps, evalExpr, evalRes, setOwn,
        lookupVar, List.lookup]

/-- The body of the register handler, run by the interpreter, gives the response of
`register` and leaves every variable outside the handler as it was. -/
lemma run_registerSource (req : Request) (res : Response) (store : Store) :
    runHandler registerSource req res store = (register req res, store) := by
  rw [register_cases]
  unfold runHandler registerSource
  simp only [exec, evalExpr_req_body]
  cases hb : requireObjectCoercible req.body with
  | error e => simp
  | ok u =>
    simp only [List.map, List.cons_append, List.nil_append, evalExpr, lookupVar, List.lookup]
    cases he : toBoolean (getV req.body "email") <;>
      cases hp : toBoolean (getV req.body "password") <;>
      cases hn : toBoolean (getV req.body "name") <;>
      simp [he, hp, hn, Response.json, Response.status, evalProps, evalExpr, evalRes, setOwn,
        lookupVar, List.lookup]

lemma run_source (endpoint : Endpoint) (req : Request) (res : Response) (store : Store) :
    runHandler endpoint.source req res store = (endpoint.handler req res, store) := by
  cases endpoint
  · exact run_loginSource req res store
  · exact run_registerSource req res store

lemma serve_source (store : Store) (history : List (Endpoint × Request)) :
    serve Endpoint.source store history
      = (store, history.map (fun call => call.1.handler call.2 Response.fresh)) := by
  induction history with
  | nil => rfl
  | cons call rest ih =>
    obtain ⟨endpoint, req⟩ := call
    simp only [serve, run_source, ih, List.map]

/-- The interpreter does tell a handler that keeps state: the body `rememberSource`, served
on both endpoints from a store where `last` is `null`, answers the same request with
`null` as the first request and with the email of the request before it otherwise, and it
leaves the store changed. -/
lemma rememberSource_keeps_state :
    (serve (fun _ => rememberSource) [("last", .null)]
        ([] ++ [(Endpoint.login, loginRequest (credentials (.string "b@x.com") (.string "p"))
          )])).2.getLast?
      = some (.ok ⟨200, some (.object [("previous", .null)])⟩)
    ∧ (serve (fun _ => rememberSource) [("last", .null)]
        ([(Endpoint.login, loginRequest (credentials (.string "a@x.com") (.string "p")))]
          ++ [(Endpoint.login, loginRequest (credentials (.string "b@x.com") (.string "p"))
          )])).2.getLast?
      = some (.ok ⟨200, some (.object [("previous", .string "a@x.com")])⟩)
    ∧ (serve (fun _ => rememberSource) [("last", .null)]
        [(Endpoint.login, loginRequest (credentials (.string "a@x.com") (.string "p")))]).1
      = [("last", .string "a@x.com")] :=
  ⟨rfl, rfl, rfl⟩

/-- C9: for each of the two endpoints, the body of its handler in `auth.js`, run on any
request after any history of earlier requests to the two endpoints and from any values of
the variables outside the handlers, gives the same response: the one computed from the
request body alone, whatever the method, path and headers of the request. Handling the
requests leaves every variable outside the handlers as it was. -/
theorem handlers_stateless (store : Store) (history1 history2 : List (Endpoint × Request))
    (endpoint : Endpoint) (req : Request) :
    (serve Endpoint.source store (history1 ++ [(endpoint, req)])).2.getLast?
        = (serve Endpoint.source store (history2 ++ [(endpoint, req)])).2.getLast?
    ∧ (serve Endpoint.source store (history1 ++ [(endpoint, req)])).2.getLast?
        = some (endpoint.handler req Response.fresh)
    ∧ (serve Endpoint.source store (history1 ++ [(endpoint, req)])).1 = store
    ∧ (∀ (other : Store) (method path : String) (headers : List (String × String)),
        runHandler endpoint.source ⟨method, path, headers, req.body⟩ Response.fresh other
          = ((runHandler endpoint.source req Response.fresh store).1, other)) := by
  have hlast : ∀ history : List (Endpoint × Request),
      (serve Endpoint.source store (history ++ [(endpoint, req)])).2.getLast?
        = some (endpoint.handler req Response.fresh) := by
    intro history
    simp [serve_source]
  refine ⟨by rw [hlast, hlast], hlast history1, by rw [serve_source], ?_⟩
  intro other method path headers
  rw [run_source, run_source]
  cases endpoint <;> rfl

/-! ## Absent body -/

/-- C10: on a request whose body is `undefined` or `null` both handlers throw a
`TypeError` at the destructuring of the body and send no response, where the claim
expects status 400; on the empty object, the body with every field missing, they do
answer with status 400. -/
theorem absent_body_throws :
    login (loginRequest .undefined) Response.fresh
        = .error (.typeError "Cannot destructure req.body as it is undefined.")
    ∧ login (loginRequest .null) Response.fresh
        = .error (.typeError "Cannot destructure req.body as it is null.")
    ∧ register (registerRequest .undefined) Response.fresh
        = .error (.typeError "Cannot destructure req.body as it is undefined.")
    ∧ register (registerRequest .null) Response.fresh
        = .error (.typeError "Cannot destructure req.body as it is null.")
    ∧ Router.handle router (loginRequest .undefined)
        = some (.error (.typeError "Cannot destructure req.body as it is undefined."))
    ∧ Router.handle router (registerRequest .undefined)
        = some (.error (.typeError "Cannot destructure req.body as it is undefined."))
    ∧ login (loginRequest (.object [])) Response.fresh
        = .ok ⟨400, some (.object [("error", .string "Email and password required")])⟩
    ∧ register (registerRequest (.object [])) Response.fresh
        = .ok ⟨400, some (.object [("error", .string "All fields required")])⟩ :=
  ⟨rfl, rfl, rfl, rfl, rfl, rfl, rfl, rfl⟩

end Eldonia
